import Mathlib

/-!
Verification of the rustar USB mouse configuration tool (src/main.rs).

The development shallowly embeds the program: the pure report encoders
become Lean functions on `Nat` with explicit modular wrapping where the
Rust code performs machine-integer arithmetic (`u8`/`u16` wrap modulo
2^8/2^16, `i16 & 0xFF` becomes `Int.emod _ 256`), and the effectful
session code (`main`, `open_device`, `find_readable_endpoints`,
`configure_endpoint`) becomes deterministic functions over an explicit
world of operation outcomes, producing the trace of USB operations
performed together with the process outcome.
-/

/-- Abstract rusb error kinds relevant to the program. -/
inductive UsbErr where
  | notFound
  | access
  | io
  | pipe
  | timeout
  deriving DecidableEq, Repr

/-- Equality of modelled operation outcomes is decidable (used only to
evaluate the model on concrete worlds). -/
instance {e a : Type} [DecidableEq e] [DecidableEq a] : DecidableEq (Except e a) := fun x y =>
  match x, y with
  | .error a1, .error a2 =>
    if h : a1 = a2 then isTrue (by rw [h]) else isFalse (fun hc => h (Except.error.inj hc))
  | .error a1, .ok b2 => isFalse (fun hc => Except.noConfusion hc)
  | .ok b1, .error a2 => isFalse (fun hc => Except.noConfusion hc)
  | .ok b1, .ok b2 =>
    if h : b1 = b2 then isTrue (by rw [h]) else isFalse (fun hc => h (Except.ok.inj hc))

/-- The `Endpoint` record of src/main.rs (config, iface, setting, address). -/
structure Endpoint where
  config : Nat
  iface : Nat
  setting : Nat
  address : Nat
  deriving DecidableEq, Repr

/-! ## Report encoders (pure part of the program)

`set_profiles_count`, `switch_profile` and `set_profile_dpi` each build a
17-byte report. Bytes are modelled as `Nat` values reduced modulo 256
exactly where the Rust code produces a `u8` (wrapping subtraction
`0x55 - x` on `u8` is `(0x55 + 256 - x % 256) % 256`; the `i16`
computation `(0x55 - 2*lo - 0x44*hi) & 0xFF` is `Int` arithmetic followed
by `emod 256`; the `u16` checksum subtraction wraps modulo 2^16 before
being truncated to `u8`). -/

/-- The 17-byte data array built by `set_profiles_count` (src/main.rs lines 224-227). -/
def set_profiles_count_data (count : Nat) : List Nat :=
  [0x08, 0x07, 0x00, 0x00, 0x02, 0x02, count % 256, (0x55 + 256 - count % 256) % 256,
   0x00, 0x00, 0x00, 0x00, 0x00, 0x00, 0x00, 0x00, 0xeb]

/-- The 17-byte data array built by `switch_profile` (src/main.rs lines 207-210). -/
def switch_profile_data (profile : Nat) : List Nat :=
  [0x08, 0x07, 0x00, 0x00, 0x04, 0x02, profile % 256, (0x55 + 256 - profile % 256) % 256,
   0x00, 0x00, 0x00, 0x00, 0x00, 0x00, 0x00, 0x00, 0xeb]

/-- The 17-byte data array built by `set_profile_dpi` (src/main.rs lines 241-249).
`dpi_index = (dpi / 50) - 1` is `u16` arithmetic (wrapping), `lo`/`hi` are its
low/high bytes, byte 9 is the `i16` computation truncated with `& 0xFF`, and
the checksum is a `u16` subtraction truncated to `u8`. -/
def set_profile_dpi_data (profile dpi : Nat) : List Nat :=
  let dpi_index : Nat := (dpi % 65536 / 50 + 65536 - 1) % 65536
  let lo : Nat := dpi_index % 256
  let hi : Nat := dpi_index / 256 % 256
  let checksum : Nat := (0x155 + 65536 - (0x13 + (0x0c + profile % 256 * 4) + 0x55)) % 65536
  [0x08, 0x07, 0x00, 0x00, (0x0c + profile % 256 * 4) % 256, 0x04, lo, lo,
   hi * 0x44 % 256,
   (((0x55 : Int) - 2 * (lo : Int) - 0x44 * (hi : Int)).emod 256).toNat,
   0x00, 0x00, 0x00, 0x00, 0x00, 0x00, checksum % 256]

/-! ## Endpoint enumeration (`find_readable_endpoints`, src/main.rs lines 164-188)

A device is modelled by the outcomes of its descriptor reads:
`device_descriptor` yields the number of configurations (or the read error
that `?` propagates), and `config_descriptor n` yields the n-th
configuration descriptor or the error that makes the loop `continue`. -/

/-- One alternate-setting descriptor: `interface_number()`, `setting_number()`
and the addresses of its endpoint descriptors, in descriptor order. -/
structure InterfaceDescriptor where
  interface_number : Nat
  setting_number : Nat
  endpoint_addresses : List Nat
  deriving DecidableEq, Repr

/-- One interface of a configuration: its alternate-setting descriptors. -/
structure Interface where
  descriptors : List InterfaceDescriptor
  deriving DecidableEq, Repr

/-- One configuration descriptor: its `number()` and its interfaces. -/
structure ConfigDescriptor where
  number : Nat
  interfaces : List Interface
  deriving DecidableEq, Repr

/-- A USB device as seen by `find_readable_endpoints`: the outcome of
`device_descriptor()` (number of configurations) and of each
`config_descriptor(n)` read. -/
structure DeviceModel where
  device_descriptor : Except UsbErr Nat
  config_descriptor : Nat → Except UsbErr ConfigDescriptor

/-- The endpoint records contributed by one readable configuration, in
descriptor order (interfaces, then alternate settings, then endpoints). -/
def config_endpoints (c : ConfigDescriptor) : List Endpoint :=
  c.interfaces.flatMap fun interface =>
    interface.descriptors.flatMap fun interface_desc =>
      interface_desc.endpoint_addresses.map fun a =>
        { config := c.number, iface := interface_desc.interface_number,
          setting := interface_desc.setting_number, address := a }

/-- The configuration loop of `find_readable_endpoints`, pushing records
into the accumulator and skipping unreadable configuration descriptors. -/
def find_loop (d : DeviceModel) : List Nat → List Endpoint → List Endpoint
  | [], acc => acc
  | n :: rest, acc =>
    match d.config_descriptor n with
    | .error _ => find_loop d rest acc
    | .ok c => find_loop d rest (acc ++ config_endpoints c)

/-- `find_readable_endpoints` (src/main.rs lines 164-188): read the device
descriptor (propagating its error), then walk configurations
`0..num_configurations`. -/
def find_readable_endpoints (d : DeviceModel) : Except UsbErr (List Endpoint) :=
  match d.device_descriptor with
  | .error e => .error e
  | .ok nc => .ok (find_loop d (List.range nc) [])

/-- A descriptor tree with two configurations, each with one interface
having one alternate setting with two endpoints. -/
def demo_device : DeviceModel where
  device_descriptor := .ok 2
  config_descriptor := fun n =>
    if n = 0 then
      .ok { number := 1, interfaces := [⟨[⟨0, 0, [0x81, 0x01]⟩]⟩] }
    else if n = 1 then
      .ok { number := 2, interfaces := [⟨[⟨0, 0, [0x82, 0x02]⟩]⟩] }
    else .error .io

/-! ## Device locator (`open_device`, src/main.rs lines 122-153) -/

/-- A USB device as seen by `open_device`: the outcome of reading its device
descriptor (vendor id, product id) and the outcome of `open()`. -/
structure SysDevice where
  device_descriptor : Except UsbErr (Nat × Nat)
  open_result : Except UsbErr Unit
  deriving Repr

/-- The host context: the outcome of enumerating the USB device list. -/
structure UsbCtx where
  devices : Except UsbErr (List SysDevice)

/-- The device-scan loop of `open_device`: skip devices with unreadable
descriptors, and on a vendor/product match try to open, continuing with the
next device when opening fails; `Error::NotFound` when the list is
exhausted. -/
def open_loop (vid pid : Nat) : List SysDevice → Except UsbErr SysDevice
  | [] => .error .notFound
  | dev :: rest =>
    match dev.device_descriptor with
    | .error _ => open_loop vid pid rest
    | .ok (v, p) =>
      if v = vid ∧ p = pid then
        match dev.open_result with
        | .ok _ => .ok dev
        | .error _ => open_loop vid pid rest
      else open_loop vid pid rest

/-- `open_device` (src/main.rs lines 122-153): propagate a device-list
enumeration error, then scan the list. -/
def open_device (ctx : UsbCtx) (vid pid : Nat) : Except UsbErr SysDevice :=
  match ctx.devices with
  | .error e => .error e
  | .ok ds => open_loop vid pid ds

/-- A device matching the target identity whose `open()` fails with a
permission error. -/
def denied_device : SysDevice where
  device_descriptor := .ok (0x3554, 0xf509)
  open_result := .error .access

/-- A context exposing only `denied_device`. -/
def denied_ctx : UsbCtx where
  devices := .ok [denied_device]

/-! ## Session manager (`main`, src/main.rs lines 34-120)

The session is embedded as a deterministic function over a `World` that
fixes the outcome of every USB operation the program can perform. Running
the session yields the ordered trace of operations attempted and the
process outcome (`Ok(())`, a propagated `Err` from a `?`, a
`std::process::exit(1)`, or a panic from `expect`/`unwrap`). -/

/-- One observable USB operation attempted by the session. -/
inductive Event where
  | locate
  | enum_endpoints
  | kernel_driver_active (iface : Nat)
  | detach_kernel_driver (iface : Nat)
  | set_active_configuration (config : Nat)
  | claim_interface (iface : Nat)
  | set_alternate_setting (iface : Nat) (setting : Nat)
  | write_control (data : List Nat)
  | release_interface (iface : Nat)
  | attach_kernel_driver (iface : Nat)
  deriving DecidableEq, Repr

/-- How the process ends: `Ok(())`, `Err(e)` propagated by `?`,
`std::process::exit(1)`, or a panic (`expect`/`unwrap`). -/
inductive Outcome where
  | ok
  | err (e : UsbErr)
  | exit1
  | panicked
  deriving DecidableEq, Repr

/-- Control flow out of a sub-block of `main`: fall through, propagate an
error via `?`, or `std::process::exit(1)`. -/
inductive CtrlFlow where
  | proceed
  | retErr (e : UsbErr)
  | exit1
  deriving DecidableEq, Repr

/-- The outcomes of every USB operation the session may attempt. -/
structure World where
  open_result : Except UsbErr Unit
  endpoints_before : Except UsbErr (List Endpoint)
  kernel_driver_active : Nat → Except UsbErr Bool
  detach_result : Nat → Except UsbErr Unit
  set_configuration_result : Nat → Except UsbErr Unit
  claim_result : Nat → Except UsbErr Unit
  set_alt_result : Nat → Nat → Except UsbErr Unit
  transfer_result : Except UsbErr Nat
  release_result : Nat → Except UsbErr Unit
  endpoints_after : Except UsbErr (List Endpoint)
  attach_result : Nat → Except UsbErr Unit

/-- The CLI commands (`activate`, `select`, `set`), after parsing. -/
inductive Cmd where
  | activate (count : Nat)
  | select (profile : Nat)
  | set (profile : Nat) (value : Nat)
  deriving DecidableEq, Repr

/-- The argument ranges accepted by `main`'s validation. -/
def Cmd.valid : Cmd → Prop
  | .activate count => 1 ≤ count ∧ count ≤ 4
  | .select profile => profile ≤ 3
  | .set profile value => profile ≤ 3 ∧ 50 ≤ value ∧ value ≤ 26000

/-- Validity of a command's arguments is decidable. -/
instance (cmd : Cmd) : Decidable cmd.valid :=
  match cmd with
  | .activate count => inferInstanceAs (Decidable (1 ≤ count ∧ count ≤ 4))
  | .select profile => inferInstanceAs (Decidable (profile ≤ 3))
  | .set profile value => inferInstanceAs (Decidable (profile ≤ 3 ∧ 50 ≤ value ∧ value ≤ 26000))

/-- One iteration of the detach loop (src/main.rs lines 58-69): query
whether a kernel driver is active on the endpoint's interface; detach it if
so (`?` on failure); `exit(1)` if the query itself fails. -/
def detach_step (w : World) (i : Nat) : List Event × CtrlFlow :=
  match w.kernel_driver_active i with
  | .ok true =>
    match w.detach_result i with
    | .ok _ => ([.kernel_driver_active i, .detach_kernel_driver i], .proceed)
    | .error e => ([.kernel_driver_active i, .detach_kernel_driver i], .retErr e)
  | .ok false => ([.kernel_driver_active i], .proceed)
  | .error _ => ([.kernel_driver_active i], .exit1)

/-- The detach loop over all discovered endpoints, stopping at the first
failing step. -/
def detach_loop (w : World) : List Endpoint → List Event × CtrlFlow
  | [] => ([], .proceed)
  | ep :: rest =>
    let s := detach_step w ep.iface
    match s.2 with
    | .proceed =>
      let r := detach_loop w rest
      (s.1 ++ r.1, r.2)
    | .retErr e => (s.1, .retErr e)
    | .exit1 => (s.1, .exit1)

/-- `configure_endpoint` (src/main.rs lines 190-197): set the active
configuration, then claim the endpoint's interface, then set its alternate
setting, each with `?`. -/
def configure_endpoint (w : World) (endpoint : Endpoint) : List Event × Except UsbErr Unit :=
  match w.set_configuration_result endpoint.config with
  | .error e => ([.set_active_configuration endpoint.config], .error e)
  | .ok _ =>
    match w.claim_result endpoint.iface with
    | .error e =>
      ([.set_active_configuration endpoint.config, .claim_interface endpoint.iface], .error e)
    | .ok _ =>
      match w.set_alt_result endpoint.iface endpoint.setting with
      | .error e =>
        ([.set_active_configuration endpoint.config, .claim_interface endpoint.iface,
          .set_alternate_setting endpoint.iface endpoint.setting], .error e)
      | .ok _ =>
        ([.set_active_configuration endpoint.config, .claim_interface endpoint.iface,
          .set_alternate_setting endpoint.iface endpoint.setting], .ok ())

/-- The command dispatch of `main` (src/main.rs lines 78-107): validate the
argument (`exit(1)` when out of range), then issue the control transfer
carrying the encoded report (`?` on failure). -/
def run_command (w : World) : Cmd → List Event × CtrlFlow
  | .activate count =>
    if count < 1 ∨ 4 < count then ([], .exit1)
    else
      match w.transfer_result with
      | .ok _ => ([.write_control (set_profiles_count_data count)], .proceed)
      | .error e => ([.write_control (set_profiles_count_data count)], .retErr e)
  | .select profile =>
    if 3 < profile then ([], .exit1)
    else
      match w.transfer_result with
      | .ok _ => ([.write_control (switch_profile_data profile)], .proceed)
      | .error e => ([.write_control (switch_profile_data profile)], .retErr e)
  | .set profile value =>
    if 3 < profile then ([], .exit1)
    else if value < 50 ∨ 26000 < value then ([], .exit1)
    else
      match w.transfer_result with
      | .ok _ => ([.write_control (set_profile_dpi_data profile value)], .proceed)
      | .error e => ([.write_control (set_profile_dpi_data profile value)], .retErr e)

/-- The reattach loop of `main` (src/main.rs lines 114-117): attach the
kernel driver on every interface of the freshly re-enumerated endpoints,
`?` on failure. -/
def attach_loop (w : World) : List Endpoint → List Event × Outcome
  | [] => ([], .ok)
  | ep :: rest =>
    match w.attach_result ep.iface with
    | .error e => ([.attach_kernel_driver ep.iface], .err e)
    | .ok _ =>
      let r := attach_loop w rest
      (.attach_kernel_driver ep.iface :: r.1, r.2)

/-- The teardown block of `main` (src/main.rs lines 109-117): release the
configured endpoint's interface (`?`), release interface 1 (`?`),
re-enumerate endpoints (`unwrap`), then run the reattach loop. -/
def teardown (w : World) (conf_iface : Nat) : List Event × Outcome :=
  match w.release_result conf_iface with
  | .error e => ([.release_interface conf_iface], .err e)
  | .ok _ =>
    match w.release_result 1 with
    | .error e => ([.release_interface conf_iface, .release_interface 1], .err e)
    | .ok _ =>
      match w.endpoints_after with
      | .error _ =>
        ([.release_interface conf_iface, .release_interface 1, .enum_endpoints], .panicked)
      | .ok eps =>
        let r := attach_loop w eps
        ([.release_interface conf_iface, .release_interface 1, .enum_endpoints] ++ r.1, r.2)

/-- The body of `main` (src/main.rs lines 34-120): locate and open the device, enumerate
endpoints, detach kernel drivers, pick the first endpoint (`expect`),
configure it, claim interface 1, validate and run the command, then release
the two interfaces, re-enumerate and reattach kernel drivers. -/
def run_main (w : World) (cmd : Cmd) : List Event × Outcome :=
  match w.open_result with
  | .error _ => ([.locate], .exit1)
  | .ok _ =>
    match w.endpoints_before with
    | .error e => ([.locate, .enum_endpoints], .err e)
    | .ok eps =>
      let dl := detach_loop w eps
      let pre := .locate :: .enum_endpoints :: dl.1
      match dl.2 with
      | .retErr e => (pre, .err e)
      | .exit1 => (pre, .exit1)
      | .proceed =>
        match eps.head? with
        | none => (pre, .panicked)
        | some endpoint =>
          let ce := configure_endpoint w endpoint
          match ce.2 with
          | .error e => (pre ++ ce.1, .err e)
          | .ok _ =>
            match w.claim_result 1 with
            | .error e => (pre ++ ce.1 ++ [.claim_interface 1], .err e)
            | .ok _ =>
              let rc := run_command w cmd
              match rc.2 with
              | .exit1 => (pre ++ ce.1 ++ [.claim_interface 1] ++ rc.1, .exit1)
              | .retErr e => (pre ++ ce.1 ++ [.claim_interface 1] ++ rc.1, .err e)
              | .proceed =>
                let td := teardown w endpoint.iface
                (pre ++ ce.1 ++ [.claim_interface 1] ++ rc.1 ++ td.1, td.2)

/-- The single endpoint of the demonstration worlds: configuration 1,
interface 0, alternate setting 0, address 0x81. -/
def demo_endpoint : Endpoint where
  config := 1
  iface := 0
  setting := 0
  address := 0x81

/-- A world in which every USB operation succeeds. The device exposes one
endpoint on interface 0 with a kernel driver initially attached. -/
def all_ok_world : World where
  open_result := .ok ()
  endpoints_before := .ok [demo_endpoint]
  kernel_driver_active := fun _ => .ok true
  detach_result := fun _ => .ok ()
  set_configuration_result := fun _ => .ok ()
  claim_result := fun _ => .ok ()
  set_alt_result := fun _ _ => .ok ()
  transfer_result := .ok 17
  release_result := fun _ => .ok ()
  endpoints_after := .ok [demo_endpoint]
  attach_result := fun _ => .ok ()

/-- `all_ok_world` except that the control transfer fails with a pipe error. -/
def transfer_fail_world : World :=
  { all_ok_world with transfer_result := .error .pipe }

/-- `all_ok_world` except that releasing any interface fails. -/
def release_fail_world : World :=
  { all_ok_world with release_result := fun _ => .error .io }

/-- `all_ok_world` except that no kernel driver is attached initially, so
the detach loop detaches nothing. -/
def no_detach_world : World :=
  { all_ok_world with kernel_driver_active := fun _ => .ok false }

/-- `all_ok_world` except that claiming interface 1 fails with a permission
error (the transfer outcome recorded in the world stays `.ok 17`, but the
session never reaches it). -/
def claim_fail_world : World :=
  { all_ok_world with
      claim_result := fun i => if i = 1 then .error .access else .ok () }

/-- `true` on the events of the setup phase (everything except release,
reattach and the control transfer). -/
def Event.setup_only : Event → Bool
  | .release_interface _ => false
  | .attach_kernel_driver _ => false
  | .write_control _ => false
  | _ => true

/-- `true` unless the event is an interface release or a driver reattach. -/
def Event.not_teardown : Event → Bool
  | .release_interface _ => false
  | .attach_kernel_driver _ => false
  | _ => true

/-- `true` unless the event is a control transfer. -/
def Event.not_transfer : Event → Bool
  | .write_control _ => false
  | _ => true

/-! ## Trace structure lemmas -/

theorem all_mono {p q : Event → Bool} (hpq : ∀ ev, p ev = true → q ev = true)
    (l : List Event) (hl : l.all p = true) : l.all q = true := by
  rw [List.all_eq_true] at hl ⊢
  exact fun ev hev => hpq ev (hl ev hev)

theorem not_mem_of_all {p : Event → Bool} {l : List Event} (hl : l.all p = true)
    {ev : Event} (hev : p ev = false) : ev ∉ l := by
  intro hmem
  have := List.all_eq_true.mp hl ev hmem
  rw [hev] at this
  exact Bool.false_ne_true this

theorem setup_not_teardown (ev : Event) :
    ev.setup_only = true → ev.not_teardown = true := by
  cases ev <;> intro h <;> first | rfl | exact h

theorem setup_not_transfer (ev : Event) :
    ev.setup_only = true → ev.not_transfer = true := by
  cases ev <;> intro h <;> first | rfl | exact h

theorem detach_step_setup (w : World) (i : Nat) :
    (detach_step w i).1.all Event.setup_only = true := by
  unfold detach_step
  split
  · split <;> rfl
  · rfl
  · rfl

theorem detach_loop_setup (w : World) (eps : List Endpoint) :
    (detach_loop w eps).1.all Event.setup_only = true := by
  induction eps with
  | nil => rfl
  | cons ep rest ih =>
    unfold detach_loop
    dsimp only
    cases (detach_step w ep.iface).2 with
    | proceed =>
      dsimp only
      rw [List.all_append, detach_step_setup, ih]
      rfl
    | retErr e => exact detach_step_setup w ep.iface
    | exit1 => exact detach_step_setup w ep.iface

theorem configure_endpoint_setup (w : World) (endpoint : Endpoint) :
    (configure_endpoint w endpoint).1.all Event.setup_only = true := by
  unfold configure_endpoint
  split
  · rfl
  · split
    · rfl
    · split <;> rfl

theorem run_command_not_teardown (w : World) (cmd : Cmd) :
    (run_command w cmd).1.all Event.not_teardown = true := by
  unfold run_command
  cases cmd <;> dsimp only
  · split
    · rfl
    · split <;> rfl
  · split
    · rfl
    · split <;> rfl
  · split
    · rfl
    · split
      · rfl
      · split <;> rfl

theorem run_command_proceed (w : World) (cmd : Cmd)
    (h : (run_command w cmd).2 = .proceed) : ∃ n, w.transfer_result = .ok n := by
  cases htr : w.transfer_result with
  | ok n => exact ⟨n, rfl⟩
  | error e =>
    exfalso
    unfold run_command at h
    cases cmd <;> dsimp only at h
    · rw [htr] at h
      split at h
      · exact CtrlFlow.noConfusion h
      · exact CtrlFlow.noConfusion h
    · rw [htr] at h
      split at h
      · exact CtrlFlow.noConfusion h
      · exact CtrlFlow.noConfusion h
    · rw [htr] at h
      split at h
      · exact CtrlFlow.noConfusion h
      · split at h
        · exact CtrlFlow.noConfusion h
        · exact CtrlFlow.noConfusion h

theorem run_command_invalid (w : World) (cmd : Cmd) (h : ¬ cmd.valid) :
    run_command w cmd = ([], .exit1) := by
  cases cmd with
  | activate count =>
    simp only [Cmd.valid] at h
    unfold run_command
    dsimp only
    rw [if_pos (by omega)]
  | select profile =>
    simp only [Cmd.valid] at h
    unfold run_command
    dsimp only
    rw [if_pos (by omega)]
  | set profile value =>
    simp only [Cmd.valid] at h
    unfold run_command
    dsimp only
    by_cases hp : 3 < profile
    · rw [if_pos hp]
    · rw [if_neg hp, if_pos (by omega)]

theorem run_command_valid_ok (w : World) (cmd : Cmd) (n : Nat)
    (hv : cmd.valid) (htr : w.transfer_result = .ok n) :
    (run_command w cmd).2 = .proceed := by
  cases cmd with
  | activate count =>
    simp only [Cmd.valid] at hv
    unfold run_command
    dsimp only
    rw [if_neg (by omega), htr]
  | select profile =>
    simp only [Cmd.valid] at hv
    unfold run_command
    dsimp only
    rw [if_neg (by omega), htr]
  | set profile value =>
    simp only [Cmd.valid] at hv
    unfold run_command
    dsimp only
    rw [if_neg (by omega), if_neg (by omega), htr]

theorem run_command_valid_error (w : World) (cmd : Cmd) (e : UsbErr)
    (hv : cmd.valid) (htr : w.transfer_result = .error e) :
    (run_command w cmd).2 = .retErr e := by
  cases cmd with
  | activate count =>
    simp only [Cmd.valid] at hv
    unfold run_command
    dsimp only
    rw [if_neg (by omega), htr]
  | select profile =>
    simp only [Cmd.valid] at hv
    unfold run_command
    dsimp only
    rw [if_neg (by omega), htr]
  | set profile value =>
    simp only [Cmd.valid] at hv
    unfold run_command
    dsimp only
    rw [if_neg (by omega), if_neg (by omega), htr]

theorem pre_not_teardown (w : World) (eps : List Endpoint) :
    (Event.locate :: Event.enum_endpoints :: (detach_loop w eps).1).all
      Event.not_teardown = true := by
  simp only [List.all_cons, Bool.and_eq_true]
  exact ⟨rfl, rfl, all_mono setup_not_teardown _ (detach_loop_setup w eps)⟩

theorem pre_not_transfer (w : World) (eps : List Endpoint) :
    (Event.locate :: Event.enum_endpoints :: (detach_loop w eps).1).all
      Event.not_transfer = true := by
  simp only [List.all_cons, Bool.and_eq_true]
  exact ⟨rfl, rfl, all_mono setup_not_transfer _ (detach_loop_setup w eps)⟩

theorem run_main_no_teardown (w : World) (cmd : Cmd)
    (h : (run_command w cmd).2 ≠ .proceed) :
    (run_main w cmd).1.all Event.not_teardown = true := by
  unfold run_main
  cases w.open_result with
  | error e => rfl
  | ok u =>
    dsimp only
    cases w.endpoints_before with
    | error e => rfl
    | ok eps =>
      dsimp only
      cases hdl : (detach_loop w eps).2 with
      | retErr e => exact pre_not_teardown w eps
      | exit1 => exact pre_not_teardown w eps
      | proceed =>
        cases hh : eps.head? with
        | none => exact pre_not_teardown w eps
        | some endpoint =>
          dsimp only
          cases hce : (configure_endpoint w endpoint).2 with
          | error e =>
            rw [List.all_append, Bool.and_eq_true]
            exact ⟨pre_not_teardown w eps,
              all_mono setup_not_teardown _ (configure_endpoint_setup w endpoint)⟩
          | ok u2 =>
            dsimp only
            cases hcl : w.claim_result 1 with
            | error e =>
              simp only [List.all_append, Bool.and_eq_true]
              refine ⟨⟨pre_not_teardown w eps,
                all_mono setup_not_teardown _ (configure_endpoint_setup w endpoint)⟩, rfl⟩
            | ok u3 =>
              dsimp only
              cases hrc : (run_command w cmd).2 with
              | proceed => exact absurd hrc h
              | retErr e =>
                simp only [List.all_append, Bool.and_eq_true]
                exact ⟨⟨⟨pre_not_teardown w eps,
                  all_mono setup_not_teardown _ (configure_endpoint_setup w endpoint)⟩, rfl⟩,
                  run_command_not_teardown w cmd⟩
              | exit1 =>
                simp only [List.all_append, Bool.and_eq_true]
                exact ⟨⟨⟨pre_not_teardown w eps,
                  all_mono setup_not_teardown _ (configure_endpoint_setup w endpoint)⟩, rfl⟩,
                  run_command_not_teardown w cmd⟩

theorem run_main_no_transfer (w : World) (cmd : Cmd)
    (h : run_command w cmd = ([], .exit1)) :
    (run_main w cmd).1.all Event.not_transfer = true := by
  unfold run_main
  cases w.open_result with
  | error e => rfl
  | ok u =>
    dsimp only
    cases w.endpoints_before with
    | error e => rfl
    | ok eps =>
      dsimp only
      cases hdl : (detach_loop w eps).2 with
      | retErr e => exact pre_not_transfer w eps
      | exit1 => exact pre_not_transfer w eps
      | proceed =>
        cases hh : eps.head? with
        | none => exact pre_not_transfer w eps
        | some endpoint =>
          dsimp only
          cases hce : (configure_endpoint w endpoint).2 with
          | error e =>
            rw [List.all_append, Bool.and_eq_true]
            exact ⟨pre_not_transfer w eps,
              all_mono setup_not_transfer _ (configure_endpoint_setup w endpoint)⟩
          | ok u2 =>
            dsimp only
            cases hcl : w.claim_result 1 with
            | error e =>
              simp only [List.all_append, Bool.and_eq_true]
              refine ⟨⟨pre_not_transfer w eps,
                all_mono setup_not_transfer _ (configure_endpoint_setup w endpoint)⟩, rfl⟩
            | ok u3 =>
              dsimp only
              cases hrc : (run_command w cmd).2 with
              | proceed =>
                rw [h] at hrc
                exact CtrlFlow.noConfusion hrc
              | retErr e =>
                rw [h] at hrc
                exact CtrlFlow.noConfusion hrc
              | exit1 =>
                simp only [List.all_append, Bool.and_eq_true]
                refine ⟨⟨⟨pre_not_transfer w eps,
                  all_mono setup_not_transfer _ (configure_endpoint_setup w endpoint)⟩, rfl⟩, ?_⟩
                rw [h]
                rfl

theorem run_main_teardown_form (w : World) (cmd : Cmd) (eps : List Endpoint)
    (endpoint : Endpoint) (n : Nat)
    (hopen : w.open_result = .ok ())
    (heps : w.endpoints_before = .ok eps)
    (hdl : (detach_loop w eps).2 = .proceed)
    (hhead : eps.head? = some endpoint)
    (hce : (configure_endpoint w endpoint).2 = .ok ())
    (hcl : w.claim_result 1 = .ok ())
    (hv : cmd.valid)
    (htr : w.transfer_result = .ok n) :
    run_main w cmd =
      ((Event.locate :: Event.enum_endpoints :: (detach_loop w eps).1) ++
        (configure_endpoint w endpoint).1 ++ [Event.claim_interface 1] ++
        (run_command w cmd).1 ++ (teardown w endpoint.iface).1,
       (teardown w endpoint.iface).2) := by
  unfold run_main
  rw [hopen]
  dsimp only
  rw [heps]
  dsimp only
  rw [hdl]
  dsimp only
  rw [hhead]
  dsimp only
  rw [hce]
  dsimp only
  rw [hcl]
  dsimp only
  rw [run_command_valid_ok w cmd n hv htr]

theorem run_main_cmd_error_form (w : World) (cmd : Cmd) (eps : List Endpoint)
    (endpoint : Endpoint) (e : UsbErr)
    (hopen : w.open_result = .ok ())
    (heps : w.endpoints_before = .ok eps)
    (hdl : (detach_loop w eps).2 = .proceed)
    (hhead : eps.head? = some endpoint)
    (hce : (configure_endpoint w endpoint).2 = .ok ())
    (hcl : w.claim_result 1 = .ok ())
    (hv : cmd.valid)
    (htr : w.transfer_result = .error e) :
    run_main w cmd =
      ((Event.locate :: Event.enum_endpoints :: (detach_loop w eps).1) ++
        (configure_endpoint w endpoint).1 ++ [Event.claim_interface 1] ++
        (run_command w cmd).1,
       .err e) := by
  unfold run_main
  rw [hopen]
  dsimp only
  rw [heps]
  dsimp only
  rw [hdl]
  dsimp only
  rw [hhead]
  dsimp only
  rw [hce]
  dsimp only
  rw [hcl]
  dsimp only
  rw [run_command_valid_error w cmd e hv htr]

theorem run_main_invalid_form (w : World) (cmd : Cmd) (eps : List Endpoint)
    (endpoint : Endpoint)
    (hopen : w.open_result = .ok ())
    (heps : w.endpoints_before = .ok eps)
    (hdl : (detach_loop w eps).2 = .proceed)
    (hhead : eps.head? = some endpoint)
    (hce : (configure_endpoint w endpoint).2 = .ok ())
    (hcl : w.claim_result 1 = .ok ())
    (hv : ¬ cmd.valid) :
    run_main w cmd =
      ((Event.locate :: Event.enum_endpoints :: (detach_loop w eps).1) ++
        (configure_endpoint w endpoint).1 ++ [Event.claim_interface 1] ++
        (run_command w cmd).1,
       .exit1) := by
  unfold run_main
  rw [hopen]
  dsimp only
  rw [heps]
  dsimp only
  rw [hdl]
  dsimp only
  rw [hhead]
  dsimp only
  rw [hce]
  dsimp only
  rw [hcl]
  dsimp only
  rw [run_command_invalid w cmd hv]

theorem run_command_proceed_valid (w : World) (cmd : Cmd)
    (h : (run_command w cmd).2 = .proceed) : cmd.valid := by
  cases cmd with
  | activate count =>
    unfold run_command at h
    dsimp only at h
    simp only [Cmd.valid]
    by_cases hc : count < 1 ∨ 4 < count
    · rw [if_pos hc] at h
      exact CtrlFlow.noConfusion h
    · omega
  | select profile =>
    unfold run_command at h
    dsimp only at h
    simp only [Cmd.valid]
    by_cases hc : 3 < profile
    · rw [if_pos hc] at h
      exact CtrlFlow.noConfusion h
    · omega
  | set profile value =>
    unfold run_command at h
    dsimp only at h
    simp only [Cmd.valid]
    by_cases hp : 3 < profile
    · rw [if_pos hp] at h
      exact CtrlFlow.noConfusion h
    · rw [if_neg hp] at h
      by_cases hv : value < 50 ∨ 26000 < value
      · rw [if_pos hv] at h
        exact CtrlFlow.noConfusion h
      · omega

theorem run_main_teardown_reached (w : World) (cmd : Cmd) (i : Nat)
    (hmem : Event.attach_kernel_driver i ∈ (run_main w cmd).1) :
    ∃ eps endpoint n, w.open_result = .ok () ∧ w.endpoints_before = .ok eps ∧
      (detach_loop w eps).2 = .proceed ∧ eps.head? = some endpoint ∧
      (configure_endpoint w endpoint).2 = .ok () ∧ w.claim_result 1 = .ok () ∧
      cmd.valid ∧ w.transfer_result = .ok n := by
  revert hmem
  unfold run_main
  cases hopen : w.open_result with
  | error e =>
    intro hmem
    exact absurd hmem (by simp)
  | ok u =>
    dsimp only
    cases heps : w.endpoints_before with
    | error e =>
      intro hmem
      exact absurd hmem (by simp)
    | ok eps =>
      dsimp only
      cases hdl : (detach_loop w eps).2 with
      | retErr e =>
        intro hmem
        exact absurd hmem (not_mem_of_all (pre_not_teardown w eps) rfl)
      | exit1 =>
        intro hmem
        exact absurd hmem (not_mem_of_all (pre_not_teardown w eps) rfl)
      | proceed =>
        cases hh : eps.head? with
        | none =>
          intro hmem
          exact absurd hmem (not_mem_of_all (pre_not_teardown w eps) rfl)
        | some endpoint =>
          dsimp only
          cases hce : (configure_endpoint w endpoint).2 with
          | error e =>
            intro hmem
            have hall : ((Event.locate :: Event.enum_endpoints ::
                (detach_loop w eps).1) ++ (configure_endpoint w endpoint).1).all
                  Event.not_teardown = true := by
              rw [List.all_append, Bool.and_eq_true]
              exact ⟨pre_not_teardown w eps,
                all_mono setup_not_teardown _ (configure_endpoint_setup w endpoint)⟩
            exact absurd hmem (not_mem_of_all hall rfl)
          | ok u2 =>
            dsimp only
            cases hcl : w.claim_result 1 with
            | error e =>
              intro hmem
              have hall : (((Event.locate :: Event.enum_endpoints ::
                  (detach_loop w eps).1) ++ (configure_endpoint w endpoint).1) ++
                    [Event.claim_interface 1]).all Event.not_teardown = true := by
                simp only [List.all_append, Bool.and_eq_true]
                refine ⟨⟨pre_not_teardown w eps,
                  all_mono setup_not_teardown _ (configure_endpoint_setup w endpoint)⟩, rfl⟩
              exact absurd hmem (not_mem_of_all hall rfl)
            | ok u3 =>
              dsimp only
              cases hrc : (run_command w cmd).2 with
              | exit1 =>
                intro hmem
                have hall : ((((Event.locate :: Event.enum_endpoints ::
                    (detach_loop w eps).1) ++ (configure_endpoint w endpoint).1) ++
                      [Event.claim_interface 1]) ++ (run_command w cmd).1).all
                        Event.not_teardown = true := by
                  simp only [List.all_append, Bool.and_eq_true]
                  exact ⟨⟨⟨pre_not_teardown w eps,
                    all_mono setup_not_teardown _ (configure_endpoint_setup w endpoint)⟩,
                    rfl⟩, run_command_not_teardown w cmd⟩
                exact absurd hmem (not_mem_of_all hall rfl)
              | retErr e =>
                intro hmem
                have hall : ((((Event.locate :: Event.enum_endpoints ::
                    (detach_loop w eps).1) ++ (configure_endpoint w endpoint).1) ++
                      [Event.claim_interface 1]) ++ (run_command w cmd).1).all
                        Event.not_teardown = true := by
                  simp only [List.all_append, Bool.and_eq_true]
                  exact ⟨⟨⟨pre_not_teardown w eps,
                    all_mono setup_not_teardown _ (configure_endpoint_setup w endpoint)⟩,
                    rfl⟩, run_command_not_teardown w cmd⟩
                exact absurd hmem (not_mem_of_all hall rfl)
              | proceed =>
                intro hmem
                obtain ⟨n, htr⟩ := run_command_proceed w cmd hrc
                cases u
                cases u2
                cases u3
                exact ⟨eps, endpoint, n, rfl, rfl, hdl, hh, hce, rfl,
                  run_command_proceed_valid w cmd hrc, htr⟩

theorem find_loop_eq_flatMap (d : DeviceModel) (ns : List Nat) (acc : List Endpoint) :
    find_loop d ns acc =
      acc ++ ns.flatMap (fun n =>
        match d.config_descriptor n with
        | .error _ => []
        | .ok c => config_endpoints c) := by
  induction ns generalizing acc with
  | nil => simp [find_loop]
  | cons n rest ih =>
    rw [find_loop]
    cases h : d.config_descriptor n with
    | error e => simp [ih, h]
    | ok c => simp [ih, h]

/-! ## Claim theorems -/

/-- C1 counterexample: in a world where every operation succeeds except the
control transfer, the session propagates the transfer error with `?` and
performs no teardown at all — both interfaces were claimed and a kernel
driver was detached, yet no release and no reattach appears in the trace. -/
theorem transfer_fail_teardown_cex :
    transfer_fail_world.transfer_result = .error .pipe ∧
    (run_main transfer_fail_world (Cmd.select 2)).2 = .err .pipe ∧
    Event.claim_interface 0 ∈ (run_main transfer_fail_world (Cmd.select 2)).1 ∧
    Event.claim_interface 1 ∈ (run_main transfer_fail_world (Cmd.select 2)).1 ∧
    Event.detach_kernel_driver 0 ∈ (run_main transfer_fail_world (Cmd.select 2)).1 ∧
    Event.release_interface 0 ∉ (run_main transfer_fail_world (Cmd.select 2)).1 ∧
    Event.release_interface 1 ∉ (run_main transfer_fail_world (Cmd.select 2)).1 ∧
    Event.attach_kernel_driver 0 ∉ (run_main transfer_fail_world (Cmd.select 2)).1 := by
  decide

/-- C1 amended: when the control transfer fails, the session performs no
teardown: it releases no interface and reattaches no kernel driver (the `?`
on the transfer returns from `main` immediately), and when the session did
reach the command step the transfer error becomes the process outcome. -/
theorem transfer_fail_no_teardown_spec (w : World) (cmd : Cmd) (e : UsbErr)
    (htr : w.transfer_result = .error e) :
    (∀ i, Event.release_interface i ∉ (run_main w cmd).1 ∧
          Event.attach_kernel_driver i ∉ (run_main w cmd).1) ∧
    (∀ eps endpoint, w.open_result = .ok () → w.endpoints_before = .ok eps →
      (detach_loop w eps).2 = .proceed → eps.head? = some endpoint →
      (configure_endpoint w endpoint).2 = .ok () → w.claim_result 1 = .ok () →
      cmd.valid → (run_main w cmd).2 = .err e) := by
  have hnp : (run_command w cmd).2 ≠ .proceed := by
    intro hp
    obtain ⟨n, hn⟩ := run_command_proceed w cmd hp
    rw [htr] at hn
    exact Except.noConfusion hn
  have hall := run_main_no_teardown w cmd hnp
  constructor
  · intro i
    exact ⟨not_mem_of_all hall rfl, not_mem_of_all hall rfl⟩
  · intro eps endpoint hopen heps hdl hhead hce hcl hv
    rw [run_main_cmd_error_form w cmd eps endpoint e hopen heps hdl hhead hce hcl hv htr]

/-- Witness for `transfer_fail_no_teardown_spec` at the concrete failing
world and `select 2`. -/
theorem transfer_fail_no_teardown_spec_witness :
    (Event.release_interface 0 ∉ (run_main transfer_fail_world (Cmd.select 2)).1 ∧
     Event.attach_kernel_driver 0 ∉ (run_main transfer_fail_world (Cmd.select 2)).1) ∧
    (run_main transfer_fail_world (Cmd.select 2)).2 = .err .pipe :=
  ⟨(transfer_fail_no_teardown_spec transfer_fail_world (Cmd.select 2) .pipe rfl).1 0,
   (transfer_fail_no_teardown_spec transfer_fail_world (Cmd.select 2) .pipe rfl).2
     [demo_endpoint] demo_endpoint rfl rfl rfl rfl rfl rfl (by decide)⟩

/-- C2: for `profile ∈ [0,3]` and `dpi` a multiple of 50 in `[50,26000]`, the
Set-Profile-DPI report has opcode `0x0c + profile*4`, length `0x04`, payload
`[lo, lo, hi*0x44, (0x55 - 2*lo - 0x44*hi) & 0xFF]` with
`lo = (dpi/50 - 1) % 256`, `hi = (dpi/50 - 1) / 256`, checksum byte
`(0x155 - (0x13 + (0x0c + profile*4) + 0x55)) mod 256`, and
`lo + 256*hi = dpi/50 - 1`. -/
theorem set_profile_dpi_spec (profile dpi : Nat)
    (h1 : profile ≤ 3) (h2 : 50 ≤ dpi) (h3 : dpi ≤ 26000) (h4 : dpi % 50 = 0) :
    set_profile_dpi_data profile dpi =
      [0x08, 0x07, 0x00, 0x00, 0x0c + profile * 4, 0x04,
       (dpi / 50 - 1) % 256, (dpi / 50 - 1) % 256,
       (dpi / 50 - 1) / 256 * 0x44,
       (((0x55 : Int) - 2 * (((dpi / 50 - 1) % 256 : Nat) : Int)
          - 0x44 * (((dpi / 50 - 1) / 256 : Nat) : Int)).emod 256).toNat,
       0x00, 0x00, 0x00, 0x00, 0x00, 0x00,
       (0x155 - (0x13 + (0x0c + profile * 4) + 0x55)) % 256] ∧
    (dpi / 50 - 1) % 256 + 256 * ((dpi / 50 - 1) / 256) = dpi / 50 - 1 := by
  have hDI : (dpi % 65536 / 50 + 65536 - 1) % 65536 = dpi / 50 - 1 := by
    have h5 : dpi % 65536 = dpi := by omega
    rw [h5]
    have h6 : 1 ≤ dpi / 50 := by omega
    have h7 : dpi / 50 ≤ 520 := by omega
    omega
  have hhi : (dpi / 50 - 1) / 256 % 256 = (dpi / 50 - 1) / 256 := by omega
  constructor
  · simp only [set_profile_dpi_data, hDI, hhi, List.cons.injEq, and_true, true_and]
    have h8 : (dpi / 50 - 1) / 256 ≤ 2 := by omega
    refine ⟨by omega, by omega, by omega⟩
  · omega

/-- Witness for `set_profile_dpi_spec` at `profile = 1`, `dpi = 100`. -/
theorem set_profile_dpi_spec_witness :
    set_profile_dpi_data 1 100 =
      [0x08, 0x07, 0x00, 0x00, 0x0c + 1 * 4, 0x04,
       (100 / 50 - 1) % 256, (100 / 50 - 1) % 256,
       (100 / 50 - 1) / 256 * 0x44,
       (((0x55 : Int) - 2 * (((100 / 50 - 1) % 256 : Nat) : Int)
          - 0x44 * (((100 / 50 - 1) / 256 : Nat) : Int)).emod 256).toNat,
       0x00, 0x00, 0x00, 0x00, 0x00, 0x00,
       (0x155 - (0x13 + (0x0c + 1 * 4) + 0x55)) % 256] ∧
    (100 / 50 - 1) % 256 + 256 * ((100 / 50 - 1) / 256) = 100 / 50 - 1 :=
  set_profile_dpi_spec 1 100 (by decide) (by decide) (by decide) (by decide)

/-- C3: for every `count` in `[1,4]` the Set-Profile-Count report has opcode `0x02`,
length `0x02`, payload `count` and checksum byte `(0x55 - count) mod 256`;
`activate 4` yields the exact regression vector; for every `profile` in `[0,3]`
the Select-Profile report has opcode `0x04`, length `0x02`, payload `profile`
and checksum byte `(0x55 - profile) mod 256`. -/
theorem profile_count_select_spec (count profile : Nat)
    (h1 : 1 ≤ count) (h2 : count ≤ 4) (h3 : profile ≤ 3) :
    set_profiles_count_data count =
      [0x08, 0x07, 0x00, 0x00, 0x02, 0x02, count, (0x55 - count) % 256,
       0x00, 0x00, 0x00, 0x00, 0x00, 0x00, 0x00, 0x00, 0xeb] ∧
    set_profiles_count_data 4 =
      [0x08, 0x07, 0x00, 0x00, 0x02, 0x02, 0x04, 0x51,
       0x00, 0x00, 0x00, 0x00, 0x00, 0x00, 0x00, 0x00, 0xeb] ∧
    switch_profile_data profile =
      [0x08, 0x07, 0x00, 0x00, 0x04, 0x02, profile, (0x55 - profile) % 256,
       0x00, 0x00, 0x00, 0x00, 0x00, 0x00, 0x00, 0x00, 0xeb] := by
  refine ⟨?_, by decide, ?_⟩ <;>
    simp only [set_profiles_count_data, switch_profile_data, List.cons.injEq, and_true,
      true_and] <;>
    omega

/-- Witness for `profile_count_select_spec` at `count = 4`, `profile = 2`. -/
theorem profile_count_select_spec_witness :
    set_profiles_count_data 4 =
      [0x08, 0x07, 0x00, 0x00, 0x02, 0x02, 4, (0x55 - 4) % 256,
       0x00, 0x00, 0x00, 0x00, 0x00, 0x00, 0x00, 0x00, 0xeb] ∧
    set_profiles_count_data 4 =
      [0x08, 0x07, 0x00, 0x00, 0x02, 0x02, 0x04, 0x51,
       0x00, 0x00, 0x00, 0x00, 0x00, 0x00, 0x00, 0x00, 0xeb] ∧
    switch_profile_data 2 =
      [0x08, 0x07, 0x00, 0x00, 0x04, 0x02, 2, (0x55 - 2) % 256,
       0x00, 0x00, 0x00, 0x00, 0x00, 0x00, 0x00, 0x00, 0xeb] :=
  profile_count_select_spec 4 2 (by decide) (by decide) (by decide)

/-- C4 counterexample: with the out-of-range argument `activate 0` and a
fully coperative device, the session opens the device, enumerates, detaches
a kernel driver, configures and claims both interfaces, and only then
rejects the argument with `exit(1)` — USB I/O occurs before validation. -/
theorem validation_after_io_cex :
    (run_main all_ok_world (Cmd.activate 0)).2 = .exit1 ∧
    Event.locate ∈ (run_main all_ok_world (Cmd.activate 0)).1 ∧
    Event.enum_endpoints ∈ (run_main all_ok_world (Cmd.activate 0)).1 ∧
    Event.detach_kernel_driver 0 ∈ (run_main all_ok_world (Cmd.activate 0)).1 ∧
    Event.set_active_configuration 1 ∈ (run_main all_ok_world (Cmd.activate 0)).1 ∧
    Event.claim_interface 0 ∈ (run_main all_ok_world (Cmd.activate 0)).1 ∧
    Event.claim_interface 1 ∈ (run_main all_ok_world (Cmd.activate 0)).1 := by
  decide

/-- C4 amended: an out-of-range argument is rejected with `exit(1)` before
the control transfer is issued (no transfer ever occurs), but only after
device open, endpoint enumeration, kernel-driver detach, configuration and
interface claiming have already been performed. -/
theorem invalid_arg_spec (w : World) (cmd : Cmd) (h : ¬ cmd.valid) :
    (∀ d, Event.write_control d ∉ (run_main w cmd).1) ∧
    (∀ eps endpoint, w.open_result = .ok () → w.endpoints_before = .ok eps →
      (detach_loop w eps).2 = .proceed → eps.head? = some endpoint →
      (configure_endpoint w endpoint).2 = .ok () → w.claim_result 1 = .ok () →
      (run_main w cmd).2 = .exit1 ∧
      Event.claim_interface 1 ∈ (run_main w cmd).1) := by
  have hall := run_main_no_transfer w cmd (run_command_invalid w cmd h)
  constructor
  · intro d
    exact not_mem_of_all hall rfl
  · intro eps endpoint hopen heps hdl hhead hce hcl
    rw [run_main_invalid_form w cmd eps endpoint hopen heps hdl hhead hce hcl h]
    refine ⟨rfl, ?_⟩
    simp

/-- Witness for `invalid_arg_spec` at `activate 0` in the all-success
world. -/
theorem invalid_arg_spec_witness :
    (∀ d, Event.write_control d ∉ (run_main all_ok_world (Cmd.activate 0)).1) ∧
    ((run_main all_ok_world (Cmd.activate 0)).2 = .exit1 ∧
     Event.claim_interface 1 ∈ (run_main all_ok_world (Cmd.activate 0)).1) :=
  ⟨(invalid_arg_spec all_ok_world (Cmd.activate 0) (by decide)).1,
   (invalid_arg_spec all_ok_world (Cmd.activate 0) (by decide)).2
     [demo_endpoint] demo_endpoint rfl rfl rfl rfl rfl rfl⟩

/-- C5 counterexample: the transfer succeeds but releasing the first
interface fails; the session stops at that first release — interface 1 is
never released, no reattach is attempted, and the release error replaces
the command's success verdict. -/
theorem release_abort_cex :
    release_fail_world.transfer_result = .ok 17 ∧
    (run_main release_fail_world (Cmd.select 2)).1 =
      [.locate, .enum_endpoints, .kernel_driver_active 0, .detach_kernel_driver 0,
       .set_active_configuration 1, .claim_interface 0, .set_alternate_setting 0 0,
       .claim_interface 1, .write_control (switch_profile_data 2),
       .release_interface 0] ∧
    (run_main release_fail_world (Cmd.select 2)).2 = .err .io ∧
    Event.release_interface 1 ∉ (run_main release_fail_world (Cmd.select 2)).1 ∧
    Event.attach_kernel_driver 0 ∉ (run_main release_fail_world (Cmd.select 2)).1 := by
  decide

/-- C5 amended: teardown releases the interfaces sequentially with `?` and
aborts at the first release failure — the remaining release and all
reattachment are skipped, and the release error becomes the process
outcome, overriding the verdict of a successful transfer. -/
theorem release_fail_spec (w : World) (cmd : Cmd) (eps : List Endpoint)
    (endpoint : Endpoint) (i n : Nat) (e1 e2 : UsbErr) :
    (w.release_result i = .error e1 →
      teardown w i = ([.release_interface i], .err e1)) ∧
    (w.release_result i = .ok () → w.release_result 1 = .error e2 →
      teardown w i = ([.release_interface i, .release_interface 1], .err e2)) ∧
    (w.open_result = .ok () → w.endpoints_before = .ok eps →
      (detach_loop w eps).2 = .proceed → eps.head? = some endpoint →
      (configure_endpoint w endpoint).2 = .ok () → w.claim_result 1 = .ok () →
      cmd.valid → w.transfer_result = .ok n →
      w.release_result endpoint.iface = .error e1 →
      (run_main w cmd).2 = .err e1) := by
  refine ⟨?_, ?_, ?_⟩
  · intro h
    unfold teardown
    rw [h]
  · intro h1 h2
    unfold teardown
    rw [h1]
    dsimp only
    rw [h2]
  · intro hopen heps hdl hhead hce hcl hv htr hrel
    rw [run_main_teardown_form w cmd eps endpoint n hopen heps hdl hhead hce hcl hv htr]
    dsimp only
    unfold teardown
    rw [hrel]

/-- Witness for `release_fail_spec` at the release-failing world. -/
theorem release_fail_spec_witness :
    (teardown release_fail_world 0 = ([.release_interface 0], .err .io)) ∧
    (run_main release_fail_world (Cmd.select 2)).2 = .err .io :=
  ⟨(release_fail_spec release_fail_world (Cmd.select 2) [demo_endpoint]
      demo_endpoint 0 17 .io .io).1 rfl,
   (release_fail_spec release_fail_world (Cmd.select 2) [demo_endpoint]
      demo_endpoint 0 17 .io .io).2.2 rfl rfl rfl rfl rfl rfl (by decide) rfl rfl⟩

/-- C6 counterexample: the single interface never had a kernel driver, so
nothing is detached during setup, yet teardown still attempts to attach the
kernel driver on it — a reattach for an interface that was never
detached. -/
theorem reattach_undetached_cex :
    Event.kernel_driver_active 0 ∈ (run_main no_detach_world (Cmd.select 2)).1 ∧
    Event.detach_kernel_driver 0 ∉ (run_main no_detach_world (Cmd.select 2)).1 ∧
    Event.attach_kernel_driver 0 ∈ (run_main no_detach_world (Cmd.select 2)).1 ∧
    (run_main no_detach_world (Cmd.select 2)).2 = .ok := by
  decide

/-- C6 amended: the reattach loop attempts kernel-driver reattachment for
every interface of the freshly re-enumerated endpoint list, regardless of
whether it was detached during setup; after a failure to claim interface 1
no reattach is ever attempted; and more generally a reattach occurs only
when every earlier session step succeeded — device open, endpoint
enumeration, the detach loop, endpoint configuration, the claim of
interface 1, argument validation and the control transfer. -/
theorem reattach_enumerated_spec (w : World) (cmd : Cmd) (eps : List Endpoint)
    (i : Nat) :
    ((∀ ep ∈ eps, w.attach_result ep.iface = .ok ()) →
      (attach_loop w eps).1 = eps.map fun ep => Event.attach_kernel_driver ep.iface) ∧
    (∀ e, w.claim_result 1 = .error e →
      Event.attach_kernel_driver i ∉ (run_main w cmd).1) ∧
    (Event.attach_kernel_driver i ∈ (run_main w cmd).1 →
      ∃ eps2 endpoint n, w.open_result = .ok () ∧ w.endpoints_before = .ok eps2 ∧
        (detach_loop w eps2).2 = .proceed ∧ eps2.head? = some endpoint ∧
        (configure_endpoint w endpoint).2 = .ok () ∧ w.claim_result 1 = .ok () ∧
        cmd.valid ∧ w.transfer_result = .ok n) := by
  refine ⟨?_, ?_, ?_⟩
  · induction eps with
    | nil => intro _; rfl
    | cons ep rest ih =>
      intro h
      unfold attach_loop
      rw [h ep (List.mem_cons_self ep rest)]
      dsimp only
      rw [ih fun ep2 hmem => h ep2 (List.mem_cons_of_mem ep hmem)]
      rfl
  · intro e hcl hmem
    obtain ⟨eps2, endpoint, n, hyp⟩ := run_main_teardown_reached w cmd i hmem
    have hclok := hyp.2.2.2.2.2.1
    rw [hcl] at hclok
    exact Except.noConfusion hclok
  · exact run_main_teardown_reached w cmd i

/-- Witness for `reattach_enumerated_spec`: part 1 at the all-success
world, part 2 at the claim-failing world, part 3 at the all-success run. -/
theorem reattach_enumerated_spec_witness :
    ((attach_loop all_ok_world [demo_endpoint]).1 =
      [demo_endpoint].map fun ep => Event.attach_kernel_driver ep.iface) ∧
    (Event.attach_kernel_driver 0 ∉ (run_main claim_fail_world (Cmd.select 2)).1) ∧
    (∃ eps2 endpoint n, all_ok_world.open_result = .ok () ∧
      all_ok_world.endpoints_before = .ok eps2 ∧
      (detach_loop all_ok_world eps2).2 = .proceed ∧ eps2.head? = some endpoint ∧
      (configure_endpoint all_ok_world endpoint).2 = .ok () ∧
      all_ok_world.claim_result 1 = .ok () ∧
      (Cmd.select 2).valid ∧ all_ok_world.transfer_result = .ok n) :=
  ⟨(reattach_enumerated_spec all_ok_world (Cmd.select 2) [demo_endpoint] 0).1
     fun ep hyp => rfl,
   (reattach_enumerated_spec claim_fail_world (Cmd.select 2) [demo_endpoint] 0).2.1
     .access rfl,
   (reattach_enumerated_spec all_ok_world (Cmd.select 2) [demo_endpoint] 0).2.2
     (by decide)⟩

/-- C7 counterexample: on the success path `configure_endpoint` performs
`set_active_configuration`, then `claim_interface`, then
`set_alternate_setting` — the claim (index 1) precedes the
alternate-setting configuration operation (index 2), so it is not the case
that no claim precedes both configuration operations. -/
theorem claim_before_alt_cex :
    (configure_endpoint all_ok_world demo_endpoint).1 =
      [.set_active_configuration 1, .claim_interface 0, .set_alternate_setting 0 0] ∧
    (configure_endpoint all_ok_world demo_endpoint).1.findIdx
      (fun ev => match ev with | .claim_interface _ => true | _ => false) = 1 ∧
    (configure_endpoint all_ok_world demo_endpoint).1.findIdx
      (fun ev => match ev with | .set_alternate_setting _ _ => true | _ => false) = 2 ∧
    (1 : Nat) < 2 := by
  decide

/-- C7 amended: `configure_endpoint` sets the active configuration before
any interface is claimed, but claims the endpoint's interface before
setting its alternate setting: on success the order is exactly
[set_active_configuration, claim_interface, set_alternate_setting], and a
configuration failure aborts before any claim. -/
theorem configure_order_spec (w : World) (endpoint : Endpoint) (e : UsbErr) :
    (w.set_configuration_result endpoint.config = .ok () →
     w.claim_result endpoint.iface = .ok () →
     w.set_alt_result endpoint.iface endpoint.setting = .ok () →
     configure_endpoint w endpoint =
       ([.set_active_configuration endpoint.config, .claim_interface endpoint.iface,
         .set_alternate_setting endpoint.iface endpoint.setting], .ok ())) ∧
    (w.set_configuration_result endpoint.config = .error e →
     configure_endpoint w endpoint =
       ([.set_active_configuration endpoint.config], .error e)) := by
  constructor
  · intro h1 h2 h3
    unfold configure_endpoint
    rw [h1, h2, h3]
  · intro h1
    unfold configure_endpoint
    rw [h1]

/-- Witness for `configure_order_spec` at the all-success world. -/
theorem configure_order_spec_witness :
    configure_endpoint all_ok_world demo_endpoint =
      ([.set_active_configuration demo_endpoint.config,
        .claim_interface demo_endpoint.iface,
        .set_alternate_setting demo_endpoint.iface demo_endpoint.setting], .ok ()) :=
  (configure_order_spec all_ok_world demo_endpoint .io).1 rfl rfl rfl

/-- C8: when the device descriptor is readable, enumeration walks all
configurations `0..num_configurations`, skips unreadable configuration
descriptors without failing, and emits exactly one record per endpoint
descriptor in descriptor order, tagged with its owning configuration
number, interface number, alternate-setting number and endpoint address;
the 2-configurations × 1-interface × 2-endpoints tree yields exactly 4
correctly tagged records. -/
theorem find_readable_endpoints_spec (d : DeviceModel) (nc : Nat)
    (h : d.device_descriptor = .ok nc) :
    find_readable_endpoints d =
      .ok ((List.range nc).flatMap (fun n =>
        match d.config_descriptor n with
        | .error _ => []
        | .ok c => config_endpoints c)) ∧
    find_readable_endpoints demo_device =
      .ok [⟨1, 0, 0, 0x81⟩, ⟨1, 0, 0, 0x01⟩, ⟨2, 0, 0, 0x82⟩, ⟨2, 0, 0, 0x02⟩] := by
  constructor
  · rw [find_readable_endpoints, h]
    dsimp only
    rw [find_loop_eq_flatMap]
    simp
  · rfl

/-- Witness for `find_readable_endpoints_spec` at the concrete demo tree. -/
theorem find_readable_endpoints_spec_witness :
    find_readable_endpoints demo_device =
      .ok ((List.range 2).flatMap (fun n =>
        match demo_device.config_descriptor n with
        | .error _ => []
        | .ok c => config_endpoints c)) ∧
    find_readable_endpoints demo_device =
      .ok [⟨1, 0, 0, 0x81⟩, ⟨1, 0, 0, 0x01⟩, ⟨2, 0, 0, 0x82⟩, ⟨2, 0, 0, 0x02⟩] :=
  find_readable_endpoints_spec demo_device 2 rfl

/-- C9 counterexample: the only device matches the target identity but its
`open()` fails with a permission error, and `open_device` reports
`Error::NotFound` — the open failure is not surfaced distinctly from
device-not-found. -/
theorem open_device_access_cex :
    denied_device.device_descriptor = .ok (0x3554, 0xf509) ∧
    denied_device.open_result = .error .access ∧
    open_device denied_ctx 0x3554 0xf509 = .error .notFound :=
  ⟨rfl, rfl, rfl⟩

/-- C9 amended: the device scan never surfaces an open failure distinctly —
its only error is `Error::NotFound`, returned exactly when every device in
the list either has an unreadable descriptor, does not match the target
identity, or matches but fails to open. -/
theorem open_device_not_found_spec (vid pid : Nat) (ds : List SysDevice) :
    (∀ e, open_loop vid pid ds = .error e → e = .notFound) ∧
    (open_loop vid pid ds = .error .notFound ↔
      ∀ dev ∈ ds, ∀ v p, dev.device_descriptor = .ok (v, p) →
        v = vid → p = pid → ∃ e, dev.open_result = .error e) := by
  induction ds with
  | nil =>
    constructor
    · intro e h
      simp only [open_loop, Except.error.injEq] at h
      exact h.symm
    · simp [open_loop]
  | cons dev rest ih =>
    constructor
    · intro e h
      cases hd : dev.device_descriptor with
      | error e2 =>
        simp only [open_loop, hd] at h
        exact ih.1 e h
      | ok vp =>
        obtain ⟨v, p⟩ := vp
        simp only [open_loop, hd] at h
        by_cases hm : v = vid ∧ p = pid
        · rw [if_pos hm] at h
          cases ho : dev.open_result with
          | ok u =>
            simp only [ho] at h
            exact Except.noConfusion h
          | error e3 =>
            simp only [ho] at h
            exact ih.1 e h
        · rw [if_neg hm] at h
          exact ih.1 e h
    · cases hd : dev.device_descriptor with
      | error e2 =>
        simp only [open_loop, hd]
        rw [ih.2]
        constructor
        · intro h dev2 hmem v p hdd
          rcases List.mem_cons.mp hmem with h2 | h2
          · subst h2; rw [hd] at hdd; exact Except.noConfusion hdd
          · exact h dev2 h2 v p hdd
        · intro h dev2 hmem v p hdd
          exact h dev2 (List.mem_cons_of_mem dev hmem) v p hdd
      | ok vp =>
        obtain ⟨v, p⟩ := vp
        simp only [open_loop, hd]
        by_cases hm : v = vid ∧ p = pid
        · rw [if_pos hm]
          cases ho : dev.open_result with
          | ok u =>
            simp only [ho]
            constructor
            · intro h
              exact Except.noConfusion h
            · intro h
              obtain ⟨e, he⟩ := h dev (List.mem_cons_self dev rest) v p hd hm.1 hm.2
              rw [ho] at he
              exact Except.noConfusion he
          | error e3 =>
            simp only [ho]
            rw [ih.2]
            constructor
            · intro h dev2 hmem v2 p2 hdd
              rcases List.mem_cons.mp hmem with h2 | h2
              · subst h2
                rw [hd] at hdd
                intro _ _
                exact ⟨e3, ho⟩
              · exact h dev2 h2 v2 p2 hdd
            · intro h dev2 hmem v2 p2 hdd
              exact h dev2 (List.mem_cons_of_mem dev hmem) v2 p2 hdd
        · rw [if_neg hm]
          rw [ih.2]
          constructor
          · intro h dev2 hmem v2 p2 hdd hv hp
            rcases List.mem_cons.mp hmem with h2 | h2
            · subst h2
              rw [hd] at hdd
              injection hdd with hvp
              injection hvp with hv2 hp2
              exact absurd ⟨hv2.trans hv, hp2.trans hp⟩ hm
            · exact h dev2 h2 v2 p2 hdd hv hp
          · intro h dev2 hmem v2 p2 hdd
            exact h dev2 (List.mem_cons_of_mem dev hmem) v2 p2 hdd

/-- Witness for `open_device_not_found_spec` at the denied-device list. -/
theorem open_device_not_found_spec_witness :
    (∀ e, open_loop 0x3554 0xf509 [denied_device] = .error e → e = .notFound) ∧
    (open_loop 0x3554 0xf509 [denied_device] = .error .notFound ↔
      ∀ dev ∈ [denied_device], ∀ v p, dev.device_descriptor = .ok (v, p) →
        v = 0x3554 → p = 0xf509 → ∃ e, dev.open_result = .error e) :=
  open_device_not_found_spec 0x3554 0xf509 [denied_device]

/-- C10: for every byte-range `count` and `profile`, the final (17th) byte of
both the Set-Profile-Count and the Select-Profile report is the constant
`0xeb`, and the parameter-dependent checksum byte `(0x55 - parameter)`
(wrapping `u8` subtraction) sits at index 7, not at the end. -/
theorem report_tail_byte_spec (count profile : Nat)
    (h1 : count < 256) (h2 : profile < 256) :
    (set_profiles_count_data count).length = 17 ∧
    (set_profiles_count_data count)[16]? = some 0xeb ∧
    (set_profiles_count_data count)[7]? = some ((0x55 + 256 - count) % 256) ∧
    (switch_profile_data profile).length = 17 ∧
    (switch_profile_data profile)[16]? = some 0xeb ∧
    (switch_profile_data profile)[7]? = some ((0x55 + 256 - profile) % 256) := by
  have hc : count % 256 = count := by omega
  have hp : profile % 256 = profile := by omega
  simp [set_profiles_count_data, switch_profile_data, hc, hp]

/-- Witness for `report_tail_byte_spec` at `count = 200`, `profile = 0`. -/
theorem report_tail_byte_spec_witness :
    (set_profiles_count_data 200).length = 17 ∧
    (set_profiles_count_data 200)[16]? = some 0xeb ∧
    (set_profiles_count_data 200)[7]? = some ((0x55 + 256 - 200) % 256) ∧
    (switch_profile_data 0).length = 17 ∧
    (switch_profile_data 0)[16]? = some 0xeb ∧
    (switch_profile_data 0)[7]? = some ((0x55 + 256 - 0) % 256) :=
  report_tail_byte_spec 200 0 (by decide) (by decide)
